import Mathlib

/-!
Verification development for the `auto-server-client` data-access library.

The library is a thin layer over the platform fetch primitive:

* `createServerClient` (src/createServerClient.ts) builds one authenticated
  HTTP request per call and maps the response into a decoded JSON value or a
  failure;
* the proxy route handler (README, `app/api/proxy/route.ts`) validates a
  JSON payload of shape method / path / body and forwards it to the client;
* `useAutoQuery` (src/client/useAutoQuery.ts) and `useAutoMutation`
  (src/client/useAutoMutation.ts) are React hooks driving a small
  loading / success / error state machine around a cancellable fetch.

We embed these shallowly: JSON (de)serialization is an external collaborator
per the specification, so request payloads and response bodies are carried as
abstract JSON values; the network and the React effect scheduler are modelled
as event traces consumed by executable step functions translated line by line
from the TypeScript source.
-/

/-- A JSON-like JavaScript value: the payloads and response bodies the
library passes through.  Numbers are modelled as integers, which suffices
for every property at issue. -/
inductive JSValue where
  | null
  | bool (b : Bool)
  | num (n : Int)
  | str (s : String)
  | arr (xs : List JSValue)
  | obj (fields : List (String × JSValue))

/-- Decidable equality for `JSValue`, by structural recursion. -/
def JSValue.beq : JSValue → JSValue → Bool
  | .null, .null => true
  | .bool a, .bool b => a == b
  | .num a, .num b => a == b
  | .str a, .str b => a == b
  | .arr xs, .arr ys => beqList xs ys
  | .obj xs, .obj ys => beqFields xs ys
  | _, _ => false
where
  beqList : List JSValue → List JSValue → Bool
    | [], [] => true
    | x :: xs, y :: ys => x.beq y && beqList xs ys
    | _, _ => false
  beqFields : List (String × JSValue) → List (String × JSValue) → Bool
    | [], [] => true
    | (k, x) :: xs, (l, y) :: ys => k == l && x.beq y && beqFields xs ys
    | _, _ => false

instance : BEq JSValue := ⟨JSValue.beq⟩

/-- JavaScript truthiness of a value: `null`, `false`, `0` and the empty
string are falsy; arrays and objects are always truthy. -/
def JSValue.truthy : JSValue → Bool
  | .null => false
  | .bool b => b
  | .num n => n != 0
  | .str s => s ≠ ""
  | .arr _ => true
  | .obj _ => true

/-- Truthiness of an optional value, where `none` stands for JavaScript
`undefined` (a missing argument), which is falsy. -/
def jsTruthy : Option JSValue → Bool
  | none => false
  | some v => v.truthy

/-! ## The authenticated request dispatcher (src/createServerClient.ts)

`getToken` has type `() => string | undefined | Promise<string | undefined>`.
The dispatcher invokes it *without awaiting*: the value it observes is either
a string, `undefined`, or a `Promise` object. -/

/-- The value a configured token provider returns when invoked:
a synchronous `string | undefined`, or a `Promise` that would resolve to
`string | undefined`.  The dispatcher never awaits, so the `async` case is
observed as the promise object itself. -/
inductive TokenResult where
  | sync (t : Option String)
  | async (t : Option String)
deriving DecidableEq

/-- JavaScript truthiness of the value returned by the token provider:
`undefined` and `""` are falsy; a `Promise` object is always truthy. -/
def TokenResult.truthy : TokenResult → Bool
  | .sync none => false
  | .sync (some s) => s ≠ ""
  | .async _ => true

/-- JavaScript template-literal string conversion of the value returned by
the token provider, as used in the interpolation producing the bearer
header.  A promise object converts to `[object Promise]`. -/
def TokenResult.interp : TokenResult → String
  | .sync none => "undefined"
  | .sync (some s) => s
  | .async _ => "[object Promise]"

/-- `ServerClientConfig` (src/createServerClient.ts): a base URL and an
optional token provider.  The provider is modelled by the value it returns
when invoked during the dispatch under consideration. -/
structure ServerClientConfig where
  baseURL : String
  getToken : Option TokenResult

/-- The outgoing HTTP request built by `createServerClient.request`: URL,
method, the headers set on it, and the payload.  The payload is carried as
the JSON value handed to `JSON.stringify` (serialization itself is an
external collaborator per the specification). -/
structure HttpRequest where
  url : String
  method : String
  headers : List (String × String)
  body : Option JSValue
deriving BEq

/-- The HTTP response the network returns: a status code and the outcome of
decoding its body as JSON (`Except.error ()` when `response.json()` would
throw). -/
structure HttpResponse where
  status : Nat
  body : Except Unit JSValue

/-- `response.ok`: status in the inclusive range 200–299. -/
def HttpResponse.ok (r : HttpResponse) : Bool :=
  200 ≤ r.status && r.status < 300

/-- Failure outcomes of a dispatch: the `Request failed: <status>` error
thrown on a non-ok status, or a transport-level failure (network error or
JSON decode failure). -/
inductive DispatchError where
  | requestFailed (status : Nat)
  | transport
deriving DecidableEq

/-- The message of the error thrown on a non-ok response,
`Request failed: <status>`. -/
def DispatchError.message : DispatchError → String
  | .requestFailed s => "Request failed: " ++ toString s
  | .transport => "transport failure"

/-- The request-building phase of `createServerClient.request`, line by line:
concatenate `baseURL` and `path`; if a token provider is configured, invoke
it (without awaiting) and, if the returned value is truthy, set
`Authorization: Bearer <token>` by template interpolation; if the body
argument is truthy, set `Content-Type: application/json` and attach the
body as the payload, else send no payload. -/
def buildRequest (config : ServerClientConfig) (method path : String)
    (body : Option JSValue) : HttpRequest :=
  let url := config.baseURL ++ path
  let headers : List (String × String) :=
    match config.getToken with
    | none => []
    | some tok =>
        if tok.truthy then [("Authorization", "Bearer " ++ tok.interp)] else []
  let headers :=
    if jsTruthy body then headers ++ [("Content-Type", "application/json")]
    else headers
  { url := url
    method := method
    headers := headers
    body := if jsTruthy body then body else none }

/-- The response-handling phase of `createServerClient.request`: on a non-ok
status throw `Request failed: <status>`; otherwise resolve with the decoded
JSON body, a decode failure propagating as a transport failure. -/
def handleResponse (resp : HttpResponse) : Except DispatchError JSValue :=
  if resp.ok then
    match resp.body with
    | .ok v => .ok v
    | .error _ => .error .transport
  else .error (.requestFailed resp.status)

/-- `createServerClient.request` as a whole, with the network as an oracle:
given the response the network returns for the built request, produce the
request that was sent together with the settled outcome of the call. -/
def request (config : ServerClientConfig) (method path : String)
    (body : Option JSValue) (resp : HttpResponse) :
    HttpRequest × Except DispatchError JSValue :=
  (buildRequest config method path body, handleResponse resp)

/-- The object returned by `createServerClient`: the four verb methods. -/
structure ServerClient where
  get : String → HttpResponse → HttpRequest × Except DispatchError JSValue
  post : String → Option JSValue → HttpResponse →
      HttpRequest × Except DispatchError JSValue
  put : String → Option JSValue → HttpResponse →
      HttpRequest × Except DispatchError JSValue
  delete : String → HttpResponse → HttpRequest × Except DispatchError JSValue

/-- `createServerClient` (src/createServerClient.ts): each verb method
delegates to `request` with the corresponding method string; `get` and
`delete` pass no body. -/
def createServerClient (config : ServerClientConfig) : ServerClient :=
  { get := fun path resp => request config "GET" path none resp
    post := fun path body resp => request config "POST" path body resp
    put := fun path body resp => request config "PUT" path body resp
    delete := fun path resp => request config "DELETE" path none resp }

/-! ## The proxy route handler (README, `app/api/proxy/route.ts`) -/

/-- `ALLOWED_METHODS` from the proxy route handler. -/
def ALLOWED_METHODS : List String := ["GET", "POST", "PUT", "DELETE"]

/-- The destructured proxy payload: each field is `none` when absent or
`undefined` in the posted JSON. -/
structure ProxyPayload where
  method : Option JSValue
  path : Option JSValue
  body : Option JSValue

/-- `ALLOWED_METHODS.includes(method)`: strict-equality membership, so only
the four verb strings pass. -/
def methodAllowed : Option JSValue → Bool
  | some (.str m) => ALLOWED_METHODS.contains m
  | _ => false

/-- `typeof path === "string" && path.startsWith("/")`: with the
one-character pattern `/`, starting with `/` is exactly having `/` as the
first character. -/
def pathValid : Option JSValue → Bool
  | some (.str p) => p.data.head? == some '/'
  | _ => false

/-- The method string of a payload that passed validation. -/
def methodString : Option JSValue → String
  | some (.str m) => m
  | _ => ""

/-- The path string of a payload that passed validation. -/
def pathString : Option JSValue → String
  | some (.str p) => p
  | _ => ""

/-- What the proxy route does with a posted payload: a structured rejection
(status and error message, no dispatch) or a dispatch through
`createServerClient` with the given method, path and body argument. -/
inductive ProxyOutcome where
  | reject (status : Nat) (errMsg : String)
  | dispatched (method : String) (path : String) (body : Option JSValue)
deriving BEq

/-- `true` exactly on the `reject` outcome. -/
def ProxyOutcome.isRejected : ProxyOutcome → Bool
  | .reject _ _ => true
  | .dispatched _ _ _ => false

/-- The HTTP status of a rejection (`0` on a dispatch, never used there). -/
def ProxyOutcome.rejStatus : ProxyOutcome → Nat
  | .reject s _ => s
  | .dispatched _ _ _ => 0

/-- The body argument the route's `switch` passes to the dispatcher: `get`
and `delete` take no body, `post` and `put` forward the payload's body. -/
def dispatchBodyArg (m : String) (body : Option JSValue) : Option JSValue :=
  if m = "POST" ∨ m = "PUT" then body else none

/-- The proxy route handler `POST` (README): `none` models a request body
that failed to parse as JSON; otherwise validate the method against
`ALLOWED_METHODS`, then the path (a string starting with `/`), each failure
answered with a structured 400 before any dispatch; on valid input dispatch
via the matching `createServerClient` verb. -/
def proxyHandler (payload : Option ProxyPayload) : ProxyOutcome :=
  match payload with
  | none => .reject 400 "Invalid JSON body"
  | some p =>
      if !methodAllowed p.method then .reject 400 "Invalid method"
      else if !pathValid p.path then .reject 400 "Invalid path"
      else .dispatched (methodString p.method) (pathString p.path)
        (dispatchBodyArg (methodString p.method) p.body)

/-! ## The interactive hooks (src/client/useAutoQuery.ts, useAutoMutation.ts)

Both hooks run on the single-threaded React runtime.  We model a hook
instance as a state machine consumed by an executable step function: the
events are the scheduler's activations (mount, path change, unmount) and the
completion of an issued fetch.  Aborting an `AbortController` makes every
await still pending on that fetch reject with an `AbortError`, so a
completion event for an aborted handle is observed by the hook code as the
`AbortError` branch of its `catch`.  Per React semantics a `setState` on an
unmounted instance is a no-op. -/

/-- The hook state, `data` / `error` / `loading`, where a missing field is
`none` (the hooks always replace the whole state object). -/
structure QueryState where
  data : Option JSValue
  error : Option String
  loading : Bool

/-- A fetch issued by a hook: URL, HTTP method, content-type header and the
JSON payload handed to `JSON.stringify`. -/
structure FetchCall where
  url : String
  method : String
  contentType : String
  payload : JSValue

/-- The fetch `useAutoQuery` issues: a POST to `/api/proxy` whose payload has
a `method` field holding `GET` and a `path` field holding the hook's path. -/
def queryFetch (path : String) : FetchCall :=
  { url := "/api/proxy"
    method := "POST"
    contentType := "application/json"
    payload := .obj [("method", .str "GET"), ("path", .str path)] }

/-- The fetch `useAutoMutation.mutate` issues: a POST to `/api/proxy` whose
payload carries the hook's method and path and, when the `body` argument is
defined, a `body` field (`JSON.stringify` drops a field holding
`undefined`). -/
def mutationFetch (method path : String) (body : Option JSValue) : FetchCall :=
  { url := "/api/proxy"
    method := "POST"
    contentType := "application/json"
    payload := .obj ([("method", .str method), ("path", .str path)] ++
      (match body with
       | some b => [("body", b)]
       | none => [])) }

/-- How an issued fetch settles, absent an abort: the network delivered a
response (whose body then decodes or fails to decode), or the fetch itself
rejected with a non-abort network error. -/
inductive FetchOutcome where
  | response (resp : HttpResponse)
  | networkError

/-- The full runtime state of one `useAutoQuery` instance: the React state,
whether the instance is still mounted, the controller of the most recent
effect run, a counter allocating controller identities, the set of aborted
controllers, and the fetches issued so far. -/
structure QuerySystem where
  state : QueryState
  mounted : Bool
  current : Option Nat
  nextId : Nat
  aborted : List Nat
  requests : List (Nat × FetchCall)

/-- Mounting `useAutoQuery path`: `useState` initializes the state to
loading with no data and no error, and the first effect run allocates a
controller and issues the proxy fetch. -/
def queryMount (path : String) : QuerySystem :=
  { state := ⟨none, none, true⟩
    mounted := true
    current := some 0
    nextId := 1
    aborted := []
    requests := [(0, queryFetch path)] }

/-- Scheduler events a mounted `useAutoQuery` instance can receive. -/
inductive QueryEvent where
  | changePath (path : String)
  | unmount
  | complete (id : Nat) (outcome : FetchOutcome)

/-- One step of the `useAutoQuery` instance, translated from the source:

* `changePath`: the effect's cleanup aborts the previous controller, then
  the effect re-runs with a fresh controller and issues the fetch for the
  new path — no `setState` occurs on this event;
* `unmount`: the cleanup aborts the current controller;
* `complete id outcome`: the async body's continuation.  If controller `id`
  was aborted, every pending await rejects with an `AbortError` and the
  `catch` returns without touching state.  Otherwise a response whose body
  decodes as `v` runs `setState` with data `v` and loading `false`, and a
  decode failure or network error runs `setState` with the error string
  `Request failed` and loading `false`; either `setState` is a no-op if the
  instance is no longer mounted. -/
def queryStep (s : QuerySystem) (e : QueryEvent) : QuerySystem :=
  match e with
  | .changePath path =>
      if s.mounted then
        { s with
          aborted := s.aborted ++ s.current.toList
          current := some s.nextId
          nextId := s.nextId + 1
          requests := s.requests ++ [(s.nextId, queryFetch path)] }
      else s
  | .unmount =>
      if s.mounted then
        { s with
          mounted := false
          aborted := s.aborted ++ s.current.toList
          current := none }
      else s
  | .complete id outcome =>
      if id ∈ s.aborted then s
      else
        match outcome with
        | .response resp =>
            match resp.body with
            | .ok v =>
                if s.mounted then { s with state := ⟨some v, none, false⟩ }
                else s
            | .error _ =>
                if s.mounted then
                  { s with state := ⟨none, some "Request failed", false⟩ }
                else s
        | .networkError =>
            if s.mounted then
              { s with state := ⟨none, some "Request failed", false⟩ }
            else s

/-- The settlement state of the promise a `mutate` call returned. -/
inductive PromiseState where
  | pending
  | resolvedWith (v : Option JSValue)
  | rejected

/-- Settle the promise of call `i` (the other entries are untouched). -/
def setPromise (ps : List (Nat × PromiseState)) (i : Nat)
    (st : PromiseState) : List (Nat × PromiseState) :=
  ps.map fun p => cond (p.1 == i) (p.1, st) p

/-- The full runtime state of one `useAutoMutation` instance: the React
state, the mounted flag, a counter allocating one controller per `mutate`
call, the set of aborted controllers, the fetches issued, and the promise
returned by each `mutate` call. -/
structure MutationSystem where
  state : QueryState
  mounted : Bool
  nextId : Nat
  aborted : List Nat
  requests : List (Nat × FetchCall)
  promises : List (Nat × PromiseState)

/-- A freshly mounted `useAutoMutation` instance: `useState` initializes the
state to loading `false` and nothing else happens at mount. -/
def mutationInit : MutationSystem :=
  { state := ⟨none, none, false⟩
    mounted := true
    nextId := 0
    aborted := []
    requests := []
    promises := [] }

/-- Events a `useAutoMutation` instance can receive.  There is no cleanup in
this hook: no event aborts a controller. -/
inductive MutationEvent where
  | mutateCall (body : Option JSValue)
  | unmount
  | complete (id : Nat) (outcome : FetchOutcome)

/-- One step of the `useAutoMutation` instance, translated from the source:

* `mutateCall body`: allocate a fresh controller, `setState` to loading
  (clearing data and error; a no-op when unmounted), issue the proxy fetch
  and record a pending returned promise;
* `unmount`: the hook installs no cleanup, so nothing is aborted and no
  other bookkeeping runs;
* `complete id outcome`: if controller `id` was aborted the `catch` sees an
  `AbortError` and returns, resolving the promise with `undefined` and
  leaving state alone.  Otherwise a response body decoding as `v` runs
  `setState` with data `v` and resolves the promise with `v`, and a decode
  failure or network error runs `setState` with the error string and
  re-throws, rejecting the promise; either `setState` is a no-op when the
  instance is unmounted, while the promise settles regardless. -/
def mutationStep (method path : String) (s : MutationSystem)
    (e : MutationEvent) : MutationSystem :=
  match e with
  | .mutateCall body =>
      { s with
        state := if s.mounted then ⟨none, none, true⟩ else s.state
        nextId := s.nextId + 1
        requests := s.requests ++ [(s.nextId, mutationFetch method path body)]
        promises := s.promises ++ [(s.nextId, .pending)] }
  | .unmount => { s with mounted := false }
  | .complete id outcome =>
      if id ∈ s.aborted then
        { s with promises := setPromise s.promises id (.resolvedWith none) }
      else
        match outcome with
        | .response resp =>
            match resp.body with
            | .ok v =>
                { s with
                  state := if s.mounted then ⟨some v, none, false⟩ else s.state
                  promises := setPromise s.promises id (.resolvedWith (some v)) }
            | .error _ =>
                { s with
                  state :=
                    if s.mounted then ⟨none, some "Request failed", false⟩
                    else s.state
                  promises := setPromise s.promises id .rejected }
        | .networkError =>
            { s with
              state :=
                if s.mounted then ⟨none, some "Request failed", false⟩
                else s.state
              promises := setPromise s.promises id .rejected }

/-! ## Helper lemmas -/

/-- No step of the query hook removes a controller from the aborted set. -/
theorem queryStep_aborted_mono (s : QuerySystem) (e : QueryEvent) :
    s.aborted ⊆ (queryStep s e).aborted := by
  cases e <;> simp only [queryStep] <;> repeat' split
  all_goals first
    | exact List.Subset.refl _
    | exact List.subset_append_left _ _

/-- Over any sequence of events, the query hook's aborted set only grows. -/
theorem foldl_queryStep_aborted_mono (evs : List QueryEvent) :
    ∀ s : QuerySystem, s.aborted ⊆ (evs.foldl queryStep s).aborted := by
  induction evs with
  | nil => intro s; exact List.Subset.refl _
  | cons e evs ih =>
      intro s a ha
      exact ih (queryStep s e) (queryStep_aborted_mono s e ha)

/-- Once a query hook instance is unmounted it stays unmounted and no step
touches its (discarded) state. -/
theorem queryStep_unmounted (s : QuerySystem) (e : QueryEvent)
    (h : s.mounted = false) :
    (queryStep s e).mounted = false ∧ (queryStep s e).state = s.state := by
  cases e <;> simp only [queryStep, h] <;> repeat' split
  all_goals simp_all

/-- Over any sequence of events, an unmounted query hook's state is frozen. -/
theorem foldl_queryStep_unmounted (evs : List QueryEvent) :
    ∀ s : QuerySystem, s.mounted = false →
      (evs.foldl queryStep s).state = s.state := by
  induction evs with
  | nil => intro s _; rfl
  | cons e evs ih =>
      intro s h
      obtain ⟨hm, hs⟩ := queryStep_unmounted s e h
      rw [List.foldl_cons, ih (queryStep s e) hm, hs]

/-- Once a mutation hook instance is unmounted it stays unmounted and no
step touches its (discarded) state; nothing ever enters its aborted set. -/
theorem mutationStep_unmounted (m p : String) (t : MutationSystem)
    (e : MutationEvent) (h : t.mounted = false) :
    (mutationStep m p t e).mounted = false ∧
      (mutationStep m p t e).state = t.state := by
  cases e <;> simp only [mutationStep, h] <;> repeat' split
  all_goals simp_all

/-- Over any sequence of events, an unmounted mutation hook's state is
frozen. -/
theorem foldl_mutationStep_unmounted (m p : String)
    (evs : List MutationEvent) :
    ∀ t : MutationSystem, t.mounted = false →
      (evs.foldl (mutationStep m p) t).state = t.state := by
  induction evs with
  | nil => intro t _; rfl
  | cons e evs ih =>
      intro t h
      obtain ⟨hm, hs⟩ := mutationStep_unmounted m p t e h
      rw [List.foldl_cons, ih (mutationStep m p t e) hm, hs]

/-- No step of the mutation hook ever aborts a controller: the hook installs
no cleanup and never calls `abort`. -/
theorem mutationStep_aborted_eq (m p : String) (t : MutationSystem)
    (e : MutationEvent) : (mutationStep m p t e).aborted = t.aborted := by
  cases e <;> simp only [mutationStep] <;> repeat' split
  all_goals rfl

/-- Settling call `i`'s promise leaves every other call's promise as it
was. -/
theorem lookup_setPromise_other (i j : Nat) (st : PromiseState)
    (h : j ≠ i) : ∀ ps : List (Nat × PromiseState),
      List.lookup j (setPromise ps i st) = List.lookup j ps := by
  intro ps
  induction ps with
  | nil => rfl
  | cons hd tl ih =>
      obtain ⟨a, b⟩ := hd
      cases hai : (a == i) with
      | true =>
          have hji : (j == i) = false := beq_eq_false_iff_ne.mpr h
          have ha : a = i := by simpa using hai
          subst ha
          simp only [setPromise, List.map_cons, hai, cond_true,
            List.lookup, hji] at *
          exact ih
      | false =>
          simp only [setPromise, List.map_cons, hai, cond_false,
            List.lookup] at *
          cases hja : (j == a) <;> simp only [hja] <;>
            first | rfl | exact ih

/-- Settling call `i`'s promise records the given settlement for it, when a
promise for `i` exists. -/
theorem lookup_setPromise_self (i : Nat) (st : PromiseState) :
    ∀ ps : List (Nat × PromiseState), (List.lookup i ps).isSome →
      List.lookup i (setPromise ps i st) = some st := by
  intro ps
  induction ps with
  | nil => intro h; simp [List.lookup] at h
  | cons hd tl ih =>
      obtain ⟨a, b⟩ := hd
      intro h
      cases hai : (a == i) with
      | true =>
          have ha : a = i := by simpa using hai
          subst ha
          simp [setPromise, List.lookup]
      | false =>
          have hne : ¬a = i := by simpa using hai
          have hia : (i == a) = false :=
            beq_eq_false_iff_ne.mpr fun e => hne e.symm
          simp only [List.lookup, hia] at h
          simp only [setPromise, List.map_cons, hai, cond_false,
            List.lookup, hia] at *
          exact ih h

/-! ## Claim theorems: the dispatcher and the proxy endpoint -/

/-- Claim C1, evaluated on the code.  `createServerClient.request` invokes
the token provider but never awaits it.  With a synchronous provider the
claimed behavior holds (header `Bearer tok` on a non-empty token, no
`Authorization` header on no token), but with an asynchronous provider —
the configuration used by the library's own `serverQuery` and its README —
the observed value is a promise object, which is truthy, so the request
always carries `Authorization: Bearer [object Promise]`, even when the
provider yields no token. -/
theorem async_token_not_awaited :
    (request ⟨"https://api.example.com", some (.async none)⟩
        "GET" "/todos/1" none ⟨200, .ok .null⟩).1.headers
      = [("Authorization", "Bearer [object Promise]")] ∧
    (request ⟨"https://api.example.com", some (.async (some "secret"))⟩
        "GET" "/todos/2" none ⟨200, .ok .null⟩).1.headers
      = [("Authorization", "Bearer [object Promise]")] ∧
    (request ⟨"https://api.example.com", some (.sync (some "tok"))⟩
        "GET" "/todos/1" none ⟨200, .ok .null⟩).1.headers
      = [("Authorization", "Bearer tok")] ∧
    (request ⟨"https://api.example.com", some (.sync none)⟩
        "GET" "/todos/1" none ⟨200, .ok .null⟩).1.headers = [] ∧
    (request ⟨"https://api.example.com", none⟩
        "GET" "/todos/1" none ⟨200, .ok .null⟩).1.headers = [] :=
  ⟨rfl, rfl, rfl, rfl, rfl⟩

/-- Claim C5: for every dispatch through any of the four verb methods of
`createServerClient`, a response status in the 200–299 range resolves the
call with the decoded JSON body, whatever its shape, and a status of 300 or
above rejects it with the request-failure error carrying that status. -/
theorem dispatch_status_mapping (c : ServerClientConfig) (p : String)
    (b : Option JSValue) (resp : HttpResponse) (v : JSValue) :
    (200 ≤ resp.status → resp.status < 300 → resp.body = .ok v →
      ((createServerClient c).get p resp).2 = .ok v ∧
      ((createServerClient c).post p b resp).2 = .ok v ∧
      ((createServerClient c).put p b resp).2 = .ok v ∧
      ((createServerClient c).delete p resp).2 = .ok v) ∧
    (300 ≤ resp.status →
      ((createServerClient c).get p resp).2
          = .error (.requestFailed resp.status) ∧
      ((createServerClient c).post p b resp).2
          = .error (.requestFailed resp.status) ∧
      ((createServerClient c).put p b resp).2
          = .error (.requestFailed resp.status) ∧
      ((createServerClient c).delete p resp).2
          = .error (.requestFailed resp.status)) := by
  constructor
  · intro h1 h2 hb
    have hok : resp.ok = true := by simp [HttpResponse.ok]; omega
    simp [createServerClient, request, handleResponse, hok, hb]
  · intro h3
    have hok : resp.ok = false := by
      have hlt : ¬resp.status < 300 := by omega
      simp [HttpResponse.ok, hlt]
    simp [createServerClient, request, handleResponse, hok]

/-- Witness for `dispatch_status_mapping` at two concrete responses. -/
theorem dispatch_status_mapping_witness :
    ((createServerClient ⟨"https://api.example.com", none⟩).get "/a"
        ⟨204, .ok (.num 7)⟩).2 = .ok (.num 7) ∧
    ((createServerClient ⟨"https://api.example.com", none⟩).get "/a"
        ⟨404, .ok .null⟩).2 = .error (.requestFailed 404) :=
  ⟨((dispatch_status_mapping ⟨"https://api.example.com", none⟩ "/a" none
      ⟨204, .ok (.num 7)⟩ (.num 7)).1 (by decide) (by decide) rfl).1,
   ((dispatch_status_mapping ⟨"https://api.example.com", none⟩ "/a" none
      ⟨404, .ok .null⟩ .null).2 (by decide)).1⟩

/-- Claim C7, counterexample.  The source guards the body with JavaScript
truthiness (`if (body)`), not definedness: a `post` invoked with the
defined body `false` sends no `Content-Type` header and no payload at all,
so the claim's round-trip fails for defined-but-falsy bodies. -/
theorem falsy_body_dropped_cex :
    (request ⟨"https://api.example.com", none⟩ "POST" "/x"
        (some (.bool false)) ⟨200, .ok .null⟩).1.headers = [] ∧
    (request ⟨"https://api.example.com", none⟩ "POST" "/x"
        (some (.bool false)) ⟨200, .ok .null⟩).1.body = none ∧
    (request ⟨"https://api.example.com", none⟩ "POST" "/x"
        (some (.num 0)) ⟨200, .ok .null⟩).1.body = none :=
  ⟨rfl, rfl, rfl⟩

/-- Claim C7 as amended: for every dispatch whose body argument is *truthy*
(defined and not `null`, `false`, `0` or the empty string), the outgoing
request carries `Content-Type: application/json` and its payload is exactly
the input body (the payload is carried as the value handed to
`JSON.stringify`, whose decoding is the external JSON collaborator), while
a falsy body argument produces the very same request as no body at all. -/
theorem truthy_body_content_type (c : ServerClientConfig) (m p : String)
    (v : JSValue) (resp : HttpResponse) (hv : v.truthy = true) :
    ("Content-Type", "application/json")
        ∈ (request c m p (some v) resp).1.headers ∧
    (request c m p (some v) resp).1.body = some v ∧
    (∀ w : Option JSValue, jsTruthy w = false →
      (request c m p w resp).1 = (request c m p none resp).1) := by
  have htv : jsTruthy (some v) = true := hv
  refine ⟨?_, ?_, ?_⟩
  · simp [request, buildRequest, htv]
  · simp [request, buildRequest, htv]
  · intro w hw
    simp [request, buildRequest, hw, show jsTruthy none = false from rfl]

/-- Witness for `truthy_body_content_type` at a concrete object body. -/
theorem truthy_body_content_type_witness :
    ("Content-Type", "application/json")
        ∈ (request ⟨"https://api.example.com", none⟩ "POST" "/todos"
            (some (.obj [("title", .str "New Todo")]))
            ⟨200, .ok .null⟩).1.headers ∧
    (request ⟨"https://api.example.com", none⟩ "POST" "/todos"
        (some (.obj [("title", .str "New Todo")]))
        ⟨200, .ok .null⟩).1.body
      = some (.obj [("title", .str "New Todo")]) :=
  ⟨(truthy_body_content_type ⟨"https://api.example.com", none⟩ "POST"
      "/todos" (.obj [("title", .str "New Todo")]) ⟨200, .ok .null⟩ rfl).1,
   (truthy_body_content_type ⟨"https://api.example.com", none⟩ "POST"
      "/todos" (.obj [("title", .str "New Todo")]) ⟨200, .ok .null⟩ rfl).2.1⟩

/-- Claim C6: the proxy route rejects, with a structured 400 response and
before any dispatch, every payload whose method is not one of the four
allowed verbs and every payload whose path is not a string starting with a
slash; the claim's three concrete probes behave exactly as stated, with a
dispatch attempted for method `GET` on path `/x`. -/
theorem proxy_validation (p : ProxyPayload) :
    (methodAllowed p.method = false →
      proxyHandler (some p) = .reject 400 "Invalid method") ∧
    (methodAllowed p.method = true → pathValid p.path = false →
      proxyHandler (some p) = .reject 400 "Invalid path") ∧
    ((methodAllowed p.method = false ∨ pathValid p.path = false) →
      (proxyHandler (some p)).isRejected = true ∧
      (proxyHandler (some p)).rejStatus = 400) ∧
    proxyHandler (some ⟨some (.str "PATCH"), some (.str "/x"), none⟩)
        = .reject 400 "Invalid method" ∧
    proxyHandler (some ⟨some (.str "GET"), some (.str "x"), none⟩)
        = .reject 400 "Invalid path" ∧
    proxyHandler (some ⟨some (.str "GET"), some (.str "/x"), none⟩)
        = .dispatched "GET" "/x" none := by
  refine ⟨?_, ?_, ?_, rfl, rfl, rfl⟩
  · intro hm
    simp [proxyHandler, hm]
  · intro hm hp
    simp [proxyHandler, hm, hp]
  · rintro (hm | hp)
    · simp [proxyHandler, hm, ProxyOutcome.isRejected, ProxyOutcome.rejStatus]
    · cases hm : methodAllowed p.method <;>
        simp [proxyHandler, hm, hp, ProxyOutcome.isRejected,
          ProxyOutcome.rejStatus]

/-- Witness for `proxy_validation`, discharging each hypothesis at concrete
payloads. -/
theorem proxy_validation_witness :
    proxyHandler (some ⟨some (.str "PATCH"), some (.str "/y"), none⟩)
        = .reject 400 "Invalid method" ∧
    proxyHandler (some ⟨some (.str "POST"), some (.str "y"), none⟩)
        = .reject 400 "Invalid path" ∧
    (proxyHandler (some ⟨some .null, none, none⟩)).isRejected = true :=
  ⟨(proxy_validation ⟨some (.str "PATCH"), some (.str "/y"), none⟩).1 rfl,
   (proxy_validation ⟨some (.str "POST"), some (.str "y"), none⟩).2.1 rfl rfl,
   ((proxy_validation ⟨some .null, none, none⟩).2.2.1 (Or.inl rfl)).1⟩

/-- Completing a fetch whose controller was aborted is a no-op on the whole
query-hook instance: the hook code observes the `AbortError` and returns. -/
theorem queryStep_complete_aborted (s : QuerySystem) (a : Nat)
    (o : FetchOutcome) (h : a ∈ s.aborted) :
    queryStep s (.complete a o) = s := by
  simp [queryStep, h]

/-! ## Claim theorems: the hooks -/

/-- Claim C2: if a `useAutoQuery` instance activated with path A is
reactivated with path B before A's request resolves, A's late-arriving
outcome — whatever it is, and whenever it arrives in the subsequent event
sequence — never mutates the hook's state: the path change aborts A's
controller, so A's continuation only ever observes an `AbortError` and
returns without a `setState`. -/
theorem query_stale_response_inert (s : QuerySystem) (a : Nat) (pB : String)
    (hm : s.mounted = true) (hc : s.current = some a)
    (evs : List QueryEvent) (o : FetchOutcome) :
    (queryStep (evs.foldl queryStep (queryStep s (.changePath pB)))
        (.complete a o)).state
      = (evs.foldl queryStep (queryStep s (.changePath pB))).state := by
  have ha : a ∈ (queryStep s (.changePath pB)).aborted := by
    simp [queryStep, hm, hc]
  have ha2 : a ∈ (evs.foldl queryStep (queryStep s (.changePath pB))).aborted :=
    foldl_queryStep_aborted_mono evs _ ha
  rw [queryStep_complete_aborted _ _ _ ha2]

/-- Witness for `query_stale_response_inert`: mount with path `/a`, change
to `/b` while request 0 is in flight; request 0's late success is inert. -/
theorem query_stale_response_inert_witness :
    (queryStep
        (List.foldl queryStep (queryStep (queryMount "/a") (.changePath "/b"))
          [])
        (.complete 0 (.response ⟨200, .ok (.str "stale")⟩))).state
      = (List.foldl queryStep (queryStep (queryMount "/a") (.changePath "/b"))
          []).state :=
  query_stale_response_inert (queryMount "/a") 0 "/b" rfl rfl []
    (.response ⟨200, .ok (.str "stale")⟩)

/-- Claim C4, counterexample.  After a mounted `useAutoQuery` on path `/a`
succeeds with a value and the path then changes to `/b`, the activation for
`/b` does issue the new proxy fetch, but the state right after the
activation still holds the old data with `loading` false: the effect body
contains no `setState`, so the claimed reset to loading on a path change
does not happen. -/
theorem query_path_change_keeps_state_cex :
    (queryStep (queryStep (queryMount "/a")
        (.complete 0 (.response ⟨200, .ok (.str "v")⟩)))
        (.changePath "/b")).state.loading = false ∧
    (queryStep (queryStep (queryMount "/a")
        (.complete 0 (.response ⟨200, .ok (.str "v")⟩)))
        (.changePath "/b")).state.data = some (.str "v") ∧
    (queryStep (queryStep (queryMount "/a")
        (.complete 0 (.response ⟨200, .ok (.str "v")⟩)))
        (.changePath "/b")).requests
      = [(0, queryFetch "/a"), (1, queryFetch "/b")] :=
  ⟨rfl, rfl, rfl⟩

/-- Claim C4 as amended: at mount `useAutoQuery` initializes its state to
loading with no data and no error and issues the proxy POST whose payload
holds method `GET` and the hook's path; on a path change it issues the
proxy POST for the new path but leaves the state untouched until that
request settles. -/
theorem query_activation_issues_request (p q : String) (s : QuerySystem)
    (hm : s.mounted = true) :
    (queryMount p).state = ⟨none, none, true⟩ ∧
    (queryMount p).requests = [(0, queryFetch p)] ∧
    (queryStep s (.changePath q)).state = s.state ∧
    (queryStep s (.changePath q)).requests
      = s.requests ++ [(s.nextId, queryFetch q)] := by
  refine ⟨rfl, rfl, ?_, ?_⟩ <;> simp [queryStep, hm]

/-- Witness for `query_activation_issues_request` at paths `/a` and `/b`. -/
theorem query_activation_issues_request_witness :
    (queryMount "/a").state = ⟨none, none, true⟩ ∧
    (queryMount "/a").requests = [(0, queryFetch "/a")] ∧
    (queryStep (queryMount "/a") (.changePath "/b")).state
        = (queryMount "/a").state ∧
    (queryStep (queryMount "/a") (.changePath "/b")).requests
      = (queryMount "/a").requests
          ++ [((queryMount "/a").nextId, queryFetch "/b")] :=
  query_activation_issues_request "/a" "/b" (queryMount "/a") rfl

/-- Claim C10: `useAutoQuery` never inspects the HTTP status of the proxy
response.  For a mounted instance whose current request is unaborted, any
response whose body parses as JSON — including the proxy's non-2xx failure
body, an object with an `error` field holding `Request failed`, at status
500 — transitions the hook to success with the parsed body in `data`; and
the `error` field is set, always to the fixed string `Request failed`,
exactly when the fetch rejects with a non-abort error or JSON decoding
throws. -/
theorem query_ignores_status (s : QuerySystem) (a : Nat) (st : Nat)
    (v : JSValue) (hm : s.mounted = true) (hab : a ∉ s.aborted) :
    (queryStep s (.complete a (.response ⟨st, .ok v⟩))).state
        = ⟨some v, none, false⟩ ∧
    (queryStep s (.complete a (.response ⟨500,
          .ok (.obj [("error", .str "Request failed")])⟩))).state
      = ⟨some (.obj [("error", .str "Request failed")]), none, false⟩ ∧
    (queryStep s (.complete a (.response ⟨st, .error ()⟩))).state
      = ⟨none, some "Request failed", false⟩ ∧
    (queryStep s (.complete a .networkError)).state
      = ⟨none, some "Request failed", false⟩ ∧
    (∀ o e, (queryStep s (.complete a o)).state.error = some e →
      e = "Request failed" ∧
        (o = .networkError ∨ ∃ stc, o = .response ⟨stc, .error ()⟩)) := by
  refine ⟨?_, ?_, ?_, ?_, ?_⟩
  · simp [queryStep, hab, hm]
  · simp [queryStep, hab, hm]
  · simp [queryStep, hab, hm]
  · simp [queryStep, hab, hm]
  · intro o e he
    cases o with
    | response r =>
        obtain ⟨stc, bd⟩ := r
        cases bd with
        | ok w => simp [queryStep, hab, hm] at he
        | error u =>
            simp [queryStep, hab, hm] at he
            exact ⟨he.symm, Or.inr ⟨stc, by cases u; rfl⟩⟩
    | networkError =>
        simp [queryStep, hab, hm] at he
        exact ⟨he.symm, Or.inl rfl⟩

/-- Witness for `query_ignores_status` on a freshly mounted instance. -/
theorem query_ignores_status_witness :
    (queryStep (queryMount "/todos")
        (.complete 0 (.response ⟨500,
          .ok (.obj [("error", .str "Request failed")])⟩))).state
      = ⟨some (.obj [("error", .str "Request failed")]), none, false⟩ :=
  (query_ignores_status (queryMount "/todos") 0 500 .null rfl
    (by decide)).2.1

/-- Completing an unaborted fetch whose body decodes as `v` reduces to: set
the state to success (a no-op when unmounted) and resolve that call's
promise with `v`. -/
theorem mutationStep_complete_ok (m p : String) (t : MutationSystem)
    (a : Nat) (st : Nat) (v : JSValue) (hab : a ∉ t.aborted) :
    mutationStep m p t (.complete a (.response ⟨st, .ok v⟩))
      = { t with
          state := if t.mounted then ⟨some v, none, false⟩ else t.state
          promises := setPromise t.promises a (.resolvedWith (some v)) } := by
  simp [mutationStep, hab]

/-- A non-abort network failure of an unaborted fetch reduces to: set the
state to the generic error (a no-op when unmounted) and reject that call's
promise. -/
theorem mutationStep_complete_net (m p : String) (t : MutationSystem)
    (a : Nat) (hab : a ∉ t.aborted) :
    mutationStep m p t (.complete a .networkError)
      = { t with
          state :=
            if t.mounted then ⟨none, some "Request failed", false⟩
            else t.state
          promises := setPromise t.promises a .rejected } := by
  simp [mutationStep, hab]

/-- Concrete run for claim C3: two rapid `mutate` calls (the second before
the first completes), the second call's request completing first and the
first call's request completing last. -/
def doubleMutateEnd : MutationSystem :=
  mutationStep "POST" "/todos"
    (mutationStep "POST" "/todos"
      (mutationStep "POST" "/todos"
        (mutationStep "POST" "/todos" mutationInit
          (.mutateCall (some (.str "b1"))))
        (.mutateCall (some (.str "b2"))))
      (.complete 1 (.response ⟨200, .ok (.str "second")⟩)))
    (.complete 0 (.response ⟨200, .ok (.str "first")⟩))

/-- Claim C3, counterexample.  `useAutoMutation` tracks no current handle
and aborts nothing, so when `mutate` is invoked twice in rapid succession
and the first call's request completes last, the hook's final state holds
the *first* call's data — the second call's outcome is overwritten,
contradicting last-writer-by-invocation-order.  (Both returned promises do
settle independently with their own values.) -/
theorem mutation_double_mutate_cex :
    doubleMutateEnd.state.data = some (.str "first") ∧
    doubleMutateEnd.state.loading = false ∧
    doubleMutateEnd.promises
      = [(0, .resolvedWith (some (.str "first"))),
         (1, .resolvedWith (some (.str "second")))] :=
  ⟨rfl, rfl, rfl⟩

/-- Claim C3 as amended: on a mounted `useAutoMutation` instance every
unaborted completion writes the hook state — so under concurrent `mutate`
calls the state reflects whichever request completes last, not the latest
invocation — while each completion settles only its own call's promise
(resolving it with that call's decoded value) and leaves every other call's
promise untouched. -/
theorem mutation_completion_last_writer (m p : String) (t : MutationSystem)
    (a : Nat) (v : JSValue) (st : Nat) (hm : t.mounted = true)
    (hab : a ∉ t.aborted) :
    (mutationStep m p t (.complete a (.response ⟨st, .ok v⟩))).state
        = ⟨some v, none, false⟩ ∧
    ((List.lookup a t.promises).isSome →
      List.lookup a (mutationStep m p t
          (.complete a (.response ⟨st, .ok v⟩))).promises
        = some (.resolvedWith (some v))) ∧
    (∀ j, j ≠ a →
      List.lookup j (mutationStep m p t
          (.complete a (.response ⟨st, .ok v⟩))).promises
        = List.lookup j t.promises) := by
  refine ⟨?_, ?_, ?_⟩
  · rw [mutationStep_complete_ok m p t a st v hab]
    simp [hm]
  · intro hp
    rw [mutationStep_complete_ok m p t a st v hab]
    exact lookup_setPromise_self a (.resolvedWith (some v)) t.promises hp
  · intro j hj
    rw [mutationStep_complete_ok m p t a st v hab]
    exact lookup_setPromise_other a j (.resolvedWith (some v)) hj t.promises

/-- Concrete mutation-hook state with two pending `mutate` calls. -/
def twoPendingMutates : MutationSystem :=
  mutationStep "POST" "/todos"
    (mutationStep "POST" "/todos" mutationInit (.mutateCall none))
    (.mutateCall none)

/-- Witness for `mutation_completion_last_writer` on two pending calls,
completing the older call 0. -/
theorem mutation_completion_last_writer_witness :
    (mutationStep "POST" "/todos" twoPendingMutates
        (.complete 0 (.response ⟨200, .ok (.str "x")⟩))).state
      = ⟨some (.str "x"), none, false⟩ ∧
    List.lookup 0 (mutationStep "POST" "/todos" twoPendingMutates
        (.complete 0 (.response ⟨200, .ok (.str "x")⟩))).promises
      = some (.resolvedWith (some (.str "x"))) ∧
    List.lookup 1 (mutationStep "POST" "/todos" twoPendingMutates
        (.complete 0 (.response ⟨200, .ok (.str "x")⟩))).promises
      = List.lookup 1 twoPendingMutates.promises :=
  ⟨(mutation_completion_last_writer "POST" "/todos" twoPendingMutates 0
      (.str "x") 200 rfl (by decide)).1,
   (mutation_completion_last_writer "POST" "/todos" twoPendingMutates 0
      (.str "x") 200 rfl (by decide)).2.1 (by decide),
   (mutation_completion_last_writer "POST" "/todos" twoPendingMutates 0
      (.str "x") 200 rfl (by decide)).2.2 1 (by decide)⟩

/-- Concrete run: one `mutate` call in flight, then the component
unmounts. -/
def mutateThenUnmount : MutationSystem :=
  mutationStep "POST" "/todos"
    (mutationStep "POST" "/todos" mutationInit
      (.mutateCall (some (.obj [("title", .str "x")]))))
    .unmount

/-- Claim C8, counterexample.  Unmounting a `useAutoMutation` instance with
a request in flight attempts no cancellation: the hook installs no effect
cleanup, so after the unmount the in-flight call's controller is still not
aborted and its promise is still pending, while `useAutoQuery` (see the
amended theorem) does abort on unmount. -/
theorem mutation_unmount_no_cancel_cex :
    mutateThenUnmount.aborted = [] ∧
    mutateThenUnmount.promises = [(0, PromiseState.pending)] ∧
    mutateThenUnmount.mounted = false ∧
    mutateThenUnmount.requests
      = [(0, mutationFetch "POST" "/todos"
          (some (.obj [("title", .str "x")])))] :=
  ⟨rfl, rfl, rfl, rfl⟩

/-- Claim C8 as amended: unmounting either hook mid-request never throws
(every step is total) and never mutates the discarded state afterwards —
over any sequence of later events the state is frozen — and `useAutoQuery`
does attempt cancellation, aborting the current controller in its effect
cleanup; `useAutoMutation`, however, attempts no cancellation on unmount:
its aborted set is unchanged (always empty). -/
theorem unmount_semantics (s : QuerySystem) (a : Nat) (t : MutationSystem)
    (m p : String) (evs : List QueryEvent) (mevs : List MutationEvent)
    (hm : s.mounted = true) (hc : s.current = some a) :
    a ∈ (queryStep s .unmount).aborted ∧
    (queryStep s .unmount).mounted = false ∧
    (queryStep s .unmount).state = s.state ∧
    (evs.foldl queryStep (queryStep s .unmount)).state = s.state ∧
    (mutationStep m p t .unmount).aborted = t.aborted ∧
    (mutationStep m p t .unmount).mounted = false ∧
    (mevs.foldl (mutationStep m p) (mutationStep m p t .unmount)).state
      = t.state := by
  have hq : (queryStep s .unmount).mounted = false := by simp [queryStep, hm]
  have hqs : (queryStep s .unmount).state = s.state := by simp [queryStep, hm]
  refine ⟨?_, hq, hqs, ?_, ?_, rfl, ?_⟩
  · simp [queryStep, hm, hc]
  · rw [foldl_queryStep_unmounted evs _ hq, hqs]
  · exact mutationStep_aborted_eq m p t .unmount
  · rw [foldl_mutationStep_unmounted m p mevs _ rfl]
    rfl

/-- Witness for `unmount_semantics`: concrete instances with one request in
flight, unmounted, then receiving that request's completion. -/
theorem unmount_semantics_witness :
    0 ∈ (queryStep (queryMount "/a") .unmount).aborted ∧
    (queryStep (queryMount "/a") .unmount).mounted = false ∧
    (queryStep (queryMount "/a") .unmount).state = (queryMount "/a").state ∧
    ([QueryEvent.complete 0 .networkError].foldl queryStep
        (queryStep (queryMount "/a") .unmount)).state
      = (queryMount "/a").state ∧
    (mutationStep "POST" "/todos" twoPendingMutates .unmount).aborted
      = twoPendingMutates.aborted ∧
    (mutationStep "POST" "/todos" twoPendingMutates .unmount).mounted
      = false ∧
    ([MutationEvent.complete 0 (.response ⟨200, .ok .null⟩)].foldl
        (mutationStep "POST" "/todos")
        (mutationStep "POST" "/todos" twoPendingMutates .unmount)).state
      = twoPendingMutates.state :=
  unmount_semantics (queryMount "/a") 0 twoPendingMutates "POST" "/todos"
    [.complete 0 .networkError] [.complete 0 (.response ⟨200, .ok .null⟩)]
    rfl rfl

/-- Concrete run for claim C9: one `mutate` call, component unmounted
mid-flight, then the request completes successfully. -/
def unmountMidFlightEnd : MutationSystem :=
  mutationStep "POST" "/todos"
    (mutationStep "POST" "/todos"
      (mutationStep "POST" "/todos" mutationInit (.mutateCall none))
      .unmount)
    (.complete 0 (.response ⟨201, .ok (.str "created")⟩))

/-- Claim C9, counterexample.  Deactivating a `useAutoMutation` component
mid-flight cancels nothing (the aborted set stays empty), the request runs
to completion, and the promise returned by the in-progress `mutate` call is
*resolved* with the decoded value — it settles, contradicting the claim
that it is abandoned (neither resolved nor rejected).  Only the discarded
state is left untouched. -/
theorem mutation_promise_after_unmount_cex :
    unmountMidFlightEnd.promises
      = [(0, .resolvedWith (some (.str "created")))] ∧
    unmountMidFlightEnd.aborted = [] ∧
    unmountMidFlightEnd.state = ⟨none, none, true⟩ :=
  ⟨rfl, rfl, rfl⟩

/-- Claim C9 as amended: deactivation does not cancel an in-flight `mutate`
call — unmount aborts nothing — and the handle causes no state transition
after deactivation (the discarded state is frozen), but the call's returned
promise still settles normally: it resolves with the decoded value when the
request succeeds and rejects when the request fails. -/
theorem mutation_unmount_promise_settles (m p : String) (t : MutationSystem)
    (a : Nat) (v : JSValue) (st : Nat) (hm : t.mounted = false)
    (hab : a ∉ t.aborted) (hp : (List.lookup a t.promises).isSome) :
    (mutationStep m p t .unmount).aborted = t.aborted ∧
    (mutationStep m p t (.complete a (.response ⟨st, .ok v⟩))).state
      = t.state ∧
    List.lookup a (mutationStep m p t
        (.complete a (.response ⟨st, .ok v⟩))).promises
      = some (.resolvedWith (some v)) ∧
    (mutationStep m p t (.complete a .networkError)).state = t.state ∧
    List.lookup a (mutationStep m p t (.complete a .networkError)).promises
      = some .rejected := by
  refine ⟨mutationStep_aborted_eq m p t .unmount, ?_, ?_, ?_, ?_⟩
  · rw [mutationStep_complete_ok m p t a st v hab]
    simp [hm]
  · rw [mutationStep_complete_ok m p t a st v hab]
    exact lookup_setPromise_self a (.resolvedWith (some v)) t.promises hp
  · rw [mutationStep_complete_net m p t a hab]
    simp [hm]
  · rw [mutationStep_complete_net m p t a hab]
    exact lookup_setPromise_self a .rejected t.promises hp

/-- Witness for `mutation_unmount_promise_settles` on a concrete unmounted
instance with request 0 pending. -/
theorem mutation_unmount_promise_settles_witness :
    List.lookup 0 (mutationStep "POST" "/todos" mutateThenUnmount
        (.complete 0 (.response ⟨201, .ok (.str "created")⟩))).promises
      = some (.resolvedWith (some (.str "created"))) :=
  (mutation_unmount_promise_settles "POST" "/todos" mutateThenUnmount 0
    (.str "created") 201 rfl (by decide) (by decide)).2.2.1
